import Mathlib

/-!
Shallow embedding of the vchasno-analytics-cli repository
(src/lambda_handler.py and src/analyze_cli.py), together with proofs of
the behavioural claims about it.

Modelling conventions:
* Python dict/JSON request bodies are modelled by the record `Body`
  (the three keys the handler reads), events by `Event`.
* `json.loads` on the request-body string, the random draws inside
  `analyze_document`, the clock, and the outcomes of the AWS calls are
  abstracted into an `Env` oracle; a Python exception escaping a call is
  an `Except.error` carrying the exception text.
* The handler returns an `Except String Response` (an `.error` means an
  exception escaped `lambda_handler`) paired with the list of external
  effects it performed, in order.
* Numbers are `ℚ` (Python floats used only through `random.uniform`
  bounds and comparisons) and `Nat`.
-/

namespace Vchasno

/-- `result['metrics']` of an analysis result (lambda_handler.py lines 138-144). -/
structure Metrics where
  docs_per_hour : Nat
  docs_per_day : Nat
  latency_p50 : ℚ
  latency_p95 : ℚ
  latency_p99 : ℚ
  deriving DecidableEq, Repr

/-- The analysis-result dict built by `analyze_document`
(lambda_handler.py lines 131-150). -/
structure AnalysisResult where
  analysis_id : String
  document_id : String
  document_type : String
  timestamp : String
  compliance_score : ℚ
  validation_passed : Bool
  metrics : Metrics
  key_findings : List String
  deriving DecidableEq, Repr

/-- One run's worth of the random draws and clock reads performed inside
`analyze_document` (lambda_handler.py lines 120-143), in source order.
The range contracts of `random.uniform` / `random.randint` are stated as
hypotheses on theorems, not baked into the type. -/
structure Rand where
  /-- `random.uniform(0.05, 0.2)` fed to `time.sleep` (line 126); unused in the result. -/
  sleepSecs : ℚ
  /-- `int(datetime.utcnow().timestamp())` (line 129). -/
  epoch : Nat
  /-- `start_time.isoformat()` (lines 120, 135). -/
  startIso : String
  /-- `random.uniform(85, 99)` (line 136). -/
  compliance : ℚ
  /-- `random.choice([True, True, True, False])` (line 137). -/
  validation : Bool
  /-- `random.randint(500, 2000)` (line 139). -/
  docsPerHour : Nat
  /-- `random.randint(10000, 45000)` (line 140). -/
  docsPerDay : Nat
  /-- `random.uniform(0.1, 0.3)` (line 141). -/
  p50 : ℚ
  /-- `random.uniform(0.4, 0.8)` (line 142). -/
  p95 : ℚ
  /-- `random.uniform(0.9, 1.5)` (line 143). -/
  p99 : ℚ
  deriving Repr

/-- `analyze_document(document_id, document_type)` (lambda_handler.py
lines 118-152), with the random draws and clock reads supplied by `r`. -/
def analyze_document (r : Rand) (document_id document_type : String) : AnalysisResult :=
  { analysis_id := "AN-" ++ document_id ++ "-" ++ toString r.epoch
    document_id := document_id
    document_type := document_type
    timestamp := r.startIso
    compliance_score := r.compliance
    validation_passed := r.validation
    metrics :=
      { docs_per_hour := r.docsPerHour
        docs_per_day := r.docsPerDay
        latency_p50 := r.p50
        latency_p95 := r.p95
        latency_p99 := r.p99 }
    key_findings :=
      ["Document structure compliant",
       "All required fields present",
       "Signatures valid"] }

/-- The decoded JSON request body, restricted to the keys the handler
reads (lambda_handler.py lines 38-40); a `none` field is an absent key. -/
structure Body where
  document_id : Option String
  document_type : Option String
  source : Option String
  deriving DecidableEq, Repr

/-- The Lambda event as the handler uses it: only `event.get('body', ...)`
is read (line 35); `body = none` models an event with no `body` key. -/
structure Event where
  body : Option String
  deriving DecidableEq, Repr

/-- The dict passed to `json.dumps` for a response body, by shape:
lines 45-47 (400), 66-77 (200) and 111-114 (500) of lambda_handler.py. -/
inductive RespBody
  /-- The 400 body `error: document_id is required`. -/
  | clientError (error : String)
  /-- The 500 body `error: Internal server error, message: str(e)`. -/
  | serverError (error message : String)
  /-- The 200 body of lines 66-77; `generation_rate` is
  `metrics.docs_per_hour` of the analysis result. -/
  | success (document_id analysis_id status result_location : String)
      (generation_rate : Nat) (latency_p50 latency_p95 latency_p99 : ℚ)
  deriving DecidableEq, Repr

/-- An HTTP-style Lambda proxy response. -/
structure Response where
  statusCode : Nat
  headers : List (String × String)
  body : RespBody
  deriving DecidableEq, Repr

/-- External calls made by the handler, in order. `json.dumps(analysis_result)`
in the S3 put is modelled by carrying the `AnalysisResult` value itself. -/
inductive Effect
  /-- A call to `analyze_document` (line 51). -/
  | analyze (document_id document_type : String)
  /-- `s3.put_object(Bucket, Key, Body, ContentType)` (lines 55-60). -/
  | s3Put (bucket key : String) (body : AnalysisResult) (contentType : String)
  /-- The `send_metrics` call of line 63. -/
  | sendMetrics (document_type : String) (result : AnalysisResult) (source : String)
  /-- The `AnalysisErrors` `cloudwatch.put_metric_data` of lines 94-104. -/
  | errorMetric
  deriving DecidableEq, Repr

def Effect.isAnalyze : Effect → Bool
  | .analyze _ _ => true
  | _ => false

def Effect.isS3Put : Effect → Bool
  | .s3Put _ _ _ _ => true
  | _ => false

/-- The oracle for one `lambda_handler` invocation: the behaviour of
`json.loads` on body strings, the random draws, the clock read at the
S3-key construction (line 54), the outcomes of the two fallible AWS
calls, and the `RESULTS_BUCKET` environment value (line 23). -/
structure Env where
  /-- `json.loads` on the request-body string; `.error e` means it raised. -/
  jsonLoads : String → Except String Body
  rand : Rand
  /-- `datetime.utcnow().isoformat()` at line 54 (the key timestamp). -/
  putNowIso : String
  /-- Outcome of `s3.put_object` (lines 55-60); `.error e` means it raised. -/
  s3PutOutcome : Except String Unit
  /-- Outcome of the error-path `cloudwatch.put_metric_data` (lines 94-104). -/
  errorMetricOutcome : Except String Unit
  /-- `RESULTS_BUCKET`. -/
  resultsBucket : String

/-- Modelled from the spec: the body of `send_metrics` past line 160 is
missing from src/ (the source file is truncated inside its `try:` block).
Per the spec, metric emission is best-effort and fire-and-forget: a
failure inside `send_metrics` must not fail the overall request, and its
whole body sits inside `try:` (line 157), so the call never raises into
`lambda_handler`. We model it as the recorded effect of the call. -/
def send_metrics (document_type : String) (analysis_result : AnalysisResult)
    (source : String) : Effect :=
  .sendMetrics document_type analysis_result source

/-- The `except Exception` path of `lambda_handler` (lines 90-115): it
first calls `cloudwatch.put_metric_data` (NOT guarded by a try/except);
if that call itself raises, the new exception escapes `lambda_handler`,
otherwise the 500 response is returned. `msg` is `str(e)` of the caught
exception, `tr` the effects already performed. -/
def handle_error (env : Env) (msg : String) (tr : List Effect) :
    Except String Response × List Effect :=
  match env.errorMetricOutcome with
  | .error e2 => (.error e2, tr)
  | .ok _ =>
      (.ok { statusCode := 500
             headers := [("Content-Type", "application/json")]
             body := .serverError "Internal server error" msg },
       tr ++ [.errorMetric])

/-- `lambda_handler(event, context)` (lambda_handler.py lines 26-115).
Returns the response (or the escaping exception) and the ordered list of
external effects performed. -/
def lambda_handler (env : Env) (event : Event) :
    Except String Response × List Effect :=
  match env.jsonLoads (event.body.getD "\x7b\x7d") with
  | .error e => handle_error env e []
  | .ok body =>
      let document_id := body.document_id.getD ""
      let document_type := body.document_type.getD "contract"
      let source := body.source.getD "unknown"
      if document_id = "" then
        (.ok { statusCode := 400
               headers := []
               body := .clientError "document_id is required" }, [])
      else
        let analysis_result := analyze_document env.rand document_id document_type
        let result_key := "analysis/" ++ document_id ++ "/" ++ env.putNowIso ++ ".json"
        let tr0 := [Effect.analyze document_id document_type]
        match env.s3PutOutcome with
        | .error e => handle_error env e tr0
        | .ok _ =>
            let tr1 := tr0 ++
              [Effect.s3Put env.resultsBucket result_key analysis_result "application/json"]
            let tr2 := tr1 ++ [send_metrics document_type analysis_result source]
            (.ok { statusCode := 200
                   headers := [("Content-Type", "application/json"),
                               ("Access-Control-Allow-Origin", "*")]
                   body := .success document_id analysis_result.analysis_id "completed"
                       ("s3://" ++ env.resultsBucket ++ "/" ++ result_key)
                       analysis_result.metrics.docs_per_hour
                       analysis_result.metrics.latency_p50
                       analysis_result.metrics.latency_p95
                       analysis_result.metrics.latency_p99 }, tr2)

/-! ## Client (src/analyze_cli.py) -/

/-- A Python JSON value, as returned by `response.json()`. -/
inductive JValue
  | null
  | bool (b : Bool)
  | num (q : ℚ)
  | str (s : String)
  | arr (elems : List JValue)
  | obj (fields : List (String × JValue))

/-- Python truthiness of a JSON value, as tested by `if result:`
(analyze_cli.py lines 45, 98, 112). -/
def JValue.truthy : JValue → Bool
  | .null => false
  | .bool b => b
  | .num q => q != 0
  | .str s => s != ""
  | .arr elems => !elems.isEmpty
  | .obj fields => !fields.isEmpty

/-- The request payload built by the client's `analyze_document`
(analyze_cli.py lines 20-25). -/
structure Payload where
  document_id : String
  document_type : String
  timestamp : String
  source : String
  deriving DecidableEq, Repr

def mk_payload (doc_id doc_type now : String) : Payload :=
  { document_id := doc_id
    document_type := doc_type
    timestamp := now
    source := "cli" }

/-- Outcome of one POST/GET round trip as the client observes it:
`.ok j` when the request, `raise_for_status()` and `response.json()` all
succeed with parsed body `j`; `.err msg` when any of them raises a
`requests.exceptions.RequestException` with text `msg` (the only failure
class the requests transport raises, and the one the client catches). -/
inductive NetOutcome
  | ok (body : JValue)
  | err (msg : String)

/-- Result of one client call: the returned value (`none` on failure)
and the lines written to stderr. -/
structure CallResult where
  result : Option JValue
  stderr : List String

/-- `VCHASNOAnalyticsCLI.analyze_document(doc_id, doc_type)`
(analyze_cli.py lines 18-37); `net` is the transport, `now` the client
clock used for the payload timestamp. -/
def cli_analyze_document (net : Payload → NetOutcome) (now doc_id doc_type : String) :
    CallResult :=
  match net (mk_payload doc_id doc_type now) with
  | .ok j => { result := some j, stderr := [] }
  | .err e => { result := none, stderr := ["Error analyzing document: " ++ e] }

/-- `VCHASNOAnalyticsCLI.get_stats()` (analyze_cli.py lines 49-57);
`netStats` is the outcome of the GET to the stats endpoint. -/
def get_stats (netStats : NetOutcome) : CallResult :=
  match netStats with
  | .ok j => { result := some j, stderr := [] }
  | .err e => { result := none, stderr := ["Error fetching stats: " ++ e] }

/-- Result of `batch_analyze`: the collected results plus both streams. -/
structure BatchResult where
  results : List JValue
  stdout : List String
  stderr : List String

/-- `VCHASNOAnalyticsCLI.batch_analyze(doc_ids, doc_type)`
(analyze_cli.py lines 39-47): sequential loop in input order; prints
one progress line per id; appends a result only when `if result:` is
truthy (in particular, `None` from a failed request is skipped). -/
def batch_analyze (net : Payload → NetOutcome) (now : String)
    (doc_ids : List String) (doc_type : String) : BatchResult :=
  match doc_ids with
  | [] => { results := [], stdout := [], stderr := [] }
  | doc_id :: rest =>
      let call := cli_analyze_document net now doc_id doc_type
      let tail := batch_analyze net now rest doc_type
      let here : List JValue :=
        match call.result with
        | some r => if r.truthy then [r] else []
        | none => []
      { results := here ++ tail.results
        stdout := ("Analyzing document " ++ doc_id ++ "...") :: tail.stdout
        stderr := call.stderr ++ tail.stderr }

/-- The `--action` choices (analyze_cli.py lines 69-74). -/
inductive Action
  | analyze
  | batch
  | stats
  deriving DecidableEq, Repr

/-- The parsed command-line arguments after argparse defaults
(analyze_cli.py lines 60-89): `doc_id`/`batch_file` are `none` when the
flag was not given, `doc_type` defaults to contract, and `action` is
required by argparse itself. -/
structure Args where
  endpoint : String
  action : Action
  doc_id : Option String
  doc_type : String
  batch_file : Option String
  deriving DecidableEq, Repr

/-- A line written to standard output by `main`. -/
inductive OutLine
  /-- A plain `print(...)` message. -/
  | msg (s : String)
  /-- `print(json.dumps(v, indent=2))` of a single result. -/
  | jsonDump (v : JValue)
  /-- `print(json.dumps(results, indent=2))` of a batch result list. -/
  | jsonDumpList (vs : List JValue)

/-- What a run of `main` produced: the process exit code, both streams,
and how many HTTP requests were issued. -/
structure ProcResult where
  exitCode : Nat
  stdout : List OutLine
  stderr : List String
  netCalls : Nat

/-- `main()` (analyze_cli.py lines 60-113). `net` is the transport for
POST /analyze (one outcome per payload), `netStats` the GET /stats
outcome, `readBatchFile` the `json.load(open(path))` of a well-formed
batch file, `now` the client clock. `sys.exit(1)` is exit code 1; a run
that falls off the end of `main` exits 0. Python truthiness of
`args.doc_id` / `args.batch_file` makes an empty-string flag value
behave like a missing one. -/
def cli_main (args : Args) (net : Payload → NetOutcome) (netStats : NetOutcome)
    (readBatchFile : String → List String) (now : String) : ProcResult :=
  match args.action with
  | .analyze =>
      if args.doc_id.getD "" = "" then
        { exitCode := 1
          stdout := []
          stderr := ["Error: --doc-id required for analyze action"]
          netCalls := 0 }
      else
        let call := cli_analyze_document net now (args.doc_id.getD "") args.doc_type
        { exitCode := 0
          stdout :=
            match call.result with
            | some r => if r.truthy then [OutLine.jsonDump r] else []
            | none => []
          stderr := call.stderr
          netCalls := 1 }
  | .batch =>
      if args.batch_file.getD "" = "" then
        { exitCode := 1
          stdout := []
          stderr := ["Error: --batch-file required for batch action"]
          netCalls := 0 }
      else
        let doc_ids := readBatchFile (args.batch_file.getD "")
        let b := batch_analyze net now doc_ids args.doc_type
        { exitCode := 0
          stdout := b.stdout.map OutLine.msg ++ [OutLine.jsonDumpList b.results]
          stderr := b.stderr
          netCalls := doc_ids.length }
  | .stats =>
      let call := get_stats netStats
      { exitCode := 0
        stdout :=
          match call.result with
          | some r => if r.truthy then [OutLine.jsonDump r] else []
          | none => []
        stderr := call.stderr
        netCalls := 1 }

/-! ## Concrete oracle instances (used by witnesses and counterexamples) -/

/-- A concrete run of the random draws, inside every library range. -/
def randEx : Rand :=
  { sleepSecs := 1/10
    epoch := 1700000000
    startIso := "2023-11-14T22:13:20"
    compliance := 90
    validation := true
    docsPerHour := 1000
    docsPerDay := 20000
    p50 := 1/5
    p95 := 3/5
    p99 := 1 }

/-- A `json.loads` oracle that decodes every string to the fixed body `b`. -/
def parseFixed (b : Body) : String → Except String Body := fun _ => .ok b

/-- A partial model of Python's `json.loads`: the literal empty-object
string decodes to the empty body, anything else raises. -/
def jsonLoadsPy : String → Except String Body := fun s =>
  if s = "\x7b\x7d" then .ok { document_id := none, document_type := none, source := none }
  else .error "Expecting value: line 1 column 1 (char 0)"

/-- Environment whose request bodies all decode to the empty object. -/
def envEmpty : Env :=
  { jsonLoads := parseFixed { document_id := none, document_type := none, source := none }
    rand := randEx
    putNowIso := "2023-11-14T22:13:21"
    s3PutOutcome := .ok ()
    errorMetricOutcome := .ok ()
    resultsBucket := "vchasno-analysis-results" }

/-- Environment whose request bodies all decode to a doc-123 request. -/
def envDoc : Env :=
  { jsonLoads := parseFixed
      { document_id := some "doc-123", document_type := some "contract", source := none }
    rand := randEx
    putNowIso := "2023-11-14T22:13:21"
    s3PutOutcome := .ok ()
    errorMetricOutcome := .ok ()
    resultsBucket := "vchasno-analysis-results" }

/-- Environment with the partial real `json.loads` and healthy backends. -/
def envBadJson : Env :=
  { jsonLoads := jsonLoadsPy
    rand := randEx
    putNowIso := "2023-11-14T22:13:21"
    s3PutOutcome := .ok ()
    errorMetricOutcome := .ok ()
    resultsBucket := "vchasno-analysis-results" }

/-- Environment in which the CloudWatch client raises on `put_metric_data`. -/
def envMetricDown : Env :=
  { jsonLoads := jsonLoadsPy
    rand := randEx
    putNowIso := "2023-11-14T22:13:21"
    s3PutOutcome := .ok ()
    errorMetricOutcome := .error "metric backend down"
    resultsBucket := "vchasno-analysis-results" }

/-- A non-empty JSON object, as the paired handler's responses are. -/
def objEx : JValue := .obj [("status", .str "success")]

/-- Transport in which the request for document id b fails and every
other request succeeds with the body `objEx`. -/
def netEx : Payload → NetOutcome := fun p =>
  if p.document_id = "b" then .err "boom" else .ok objEx

/-- Transport in which every request fails. -/
def netFailAll : Payload → NetOutcome := fun _ => .err "connection refused"

/-- Batch-file oracle: every file reads as the three ids a, b, c. -/
def readAbc : String → List String := fun _ => ["a", "b", "c"]

/-- Whether the client request for id `i` (sent with type `t` at time
`now` over transport `net`) fails. -/
def requestFails (net : Payload → NetOutcome) (t now i : String) : Bool :=
  match net (mk_payload i t now) with
  | .ok _ => false
  | .err _ => true

/-! ## Claims -/

/-- C1: for every request body in which `document_id` is absent or the
empty string, `lambda_handler` returns status 400 with body
`error: document_id is required`, and performs no analysis invocation
and no storage write (its effect trace is empty). -/
theorem missing_document_id_rejected (env : Env) (event : Event) (b : Body)
    (hparse : env.jsonLoads (event.body.getD "\x7b\x7d") = .ok b)
    (hdoc : b.document_id = none ∨ b.document_id = some "") :
    lambda_handler env event =
      (.ok { statusCode := 400, headers := [],
             body := .clientError "document_id is required" }, [])
      ∧ ∀ eff ∈ (lambda_handler env event).2,
          eff.isAnalyze = false ∧ eff.isS3Put = false := by
  have hmain : lambda_handler env event =
      (.ok { statusCode := 400, headers := [],
             body := .clientError "document_id is required" }, []) := by
    unfold lambda_handler
    rw [hparse]
    rcases hdoc with h | h <;> simp [h]
  refine ⟨hmain, ?_⟩
  rw [hmain]
  intro eff h
  cases h

/-- Witness for C1 at the concrete empty-object request. -/
theorem missing_document_id_rejected_witness :
    lambda_handler envEmpty { body := some "\x7b\x7d" } =
      (.ok { statusCode := 400, headers := [],
             body := .clientError "document_id is required" }, [])
      ∧ ∀ eff ∈ (lambda_handler envEmpty { body := some "\x7b\x7d" }).2,
          eff.isAnalyze = false ∧ eff.isS3Put = false :=
  missing_document_id_rejected envEmpty { body := some "\x7b\x7d" }
    { document_id := none, document_type := none, source := none }
    rfl (Or.inl rfl)

/-- C2: for every non-empty `document_id`, the analysis result contains
the supplied id as a substring of its `analysis_id` (witnessed by an
explicit decomposition), and its `document_id` field equals the input. -/
theorem analysis_id_contains_document_id (r : Rand) (d t : String) (hd : d ≠ "") :
    (∃ pre post,
        pre ++ d.data ++ post = (analyze_document r d t).analysis_id.data)
      ∧ (analyze_document r d t).document_id = d := by
  refine ⟨⟨"AN-".data, ("-" ++ toString r.epoch).data, ?_⟩, rfl⟩
  simp [analyze_document, String.data_append]

/-- Witness for C2 at doc-123. -/
theorem analysis_id_contains_document_id_witness :
    ("doc-123" : String) ≠ "" ∧
      ((∃ pre post, pre ++ ("doc-123" : String).data ++ post =
          (analyze_document randEx "doc-123" "contract").analysis_id.data)
        ∧ (analyze_document randEx "doc-123" "contract").document_id = "doc-123") :=
  ⟨by decide, analysis_id_contains_document_id randEx "doc-123" "contract" (by decide)⟩

/-- C3: for every run of the analysis step — i.e. for every choice of
the random draws within the ranges `random.uniform` was called with
(p50 from 0.1-0.3, p95 from 0.4-0.8, p99 from 0.9-1.5) — the produced
result satisfies latency_p50 ≤ latency_p95 ≤ latency_p99. (The three
ranges are pairwise disjoint and increasing, so the generator does
guarantee the invariant.) -/
theorem latency_percentiles_ordered (r : Rand) (d t : String)
    (h50 : 1/10 ≤ r.p50 ∧ r.p50 ≤ 3/10)
    (h95 : 2/5 ≤ r.p95 ∧ r.p95 ≤ 4/5)
    (h99 : 9/10 ≤ r.p99 ∧ r.p99 ≤ 3/2) :
    (analyze_document r d t).metrics.latency_p50 ≤
        (analyze_document r d t).metrics.latency_p95
      ∧ (analyze_document r d t).metrics.latency_p95 ≤
        (analyze_document r d t).metrics.latency_p99 := by
  simp only [analyze_document]
  exact ⟨le_trans h50.2 (le_trans (by norm_num) h95.1),
         le_trans h95.2 (le_trans (by norm_num) h99.1)⟩

/-- Witness for C3 at a concrete draw. -/
theorem latency_percentiles_ordered_witness :
    (1/10 ≤ randEx.p50 ∧ randEx.p50 ≤ 3/10)
      ∧ (2/5 ≤ randEx.p95 ∧ randEx.p95 ≤ 4/5)
      ∧ (9/10 ≤ randEx.p99 ∧ randEx.p99 ≤ 3/2)
      ∧ ((analyze_document randEx "doc-1" "contract").metrics.latency_p50 ≤
            (analyze_document randEx "doc-1" "contract").metrics.latency_p95
          ∧ (analyze_document randEx "doc-1" "contract").metrics.latency_p95 ≤
            (analyze_document randEx "doc-1" "contract").metrics.latency_p99) :=
  ⟨by norm_num [randEx], by norm_num [randEx], by norm_num [randEx],
   latency_percentiles_ordered randEx "doc-1" "contract"
     (by norm_num [randEx]) (by norm_num [randEx]) (by norm_num [randEx])⟩

/-- Helper: one induction over the id list settles the three batch facts
(the collected results, their count, and the one-progress-line-per-id
stdout) at once, with the count stated subtraction-free. -/
theorem batch_analyze_spec (net : Payload → NetOutcome) (now t : String)
    (ids : List String)
    (htruthy : ∀ p j, net p = .ok j → j.truthy = true) :
    (batch_analyze net now ids t).results
        = ids.filterMap (fun i =>
            match net (mk_payload i t now) with
            | .ok j => some j
            | .err _ => none)
      ∧ (batch_analyze net now ids t).results.length
          + (ids.filter (requestFails net t now)).length = ids.length
      ∧ (batch_analyze net now ids t).stdout
          = ids.map (fun i => "Analyzing document " ++ i ++ "...") := by
  induction ids with
  | nil => exact ⟨rfl, rfl, rfl⟩
  | cons i rest ih =>
      obtain ⟨ih1, ih2, ih3⟩ := ih
      cases hn : net (mk_payload i t now) with
      | ok j =>
          have ht := htruthy _ _ hn
          refine ⟨?_, ?_, ?_⟩
          · simp [batch_analyze, cli_analyze_document, hn, ht, ih1]
          · have hf : requestFails net t now i = false := by
              simp [requestFails, hn]
            simp [batch_analyze, cli_analyze_document, hn, ht, List.filter_cons, hf]
            omega
          · simp [batch_analyze, ih3]
      | err e =>
          refine ⟨?_, ?_, ?_⟩
          · simp [batch_analyze, cli_analyze_document, hn, ih1]
          · have hf : requestFails net t now i = true := by
              simp [requestFails, hn]
            simp [batch_analyze, cli_analyze_document, hn, List.filter_cons, hf]
            omega
          · simp [batch_analyze, ih3]

/-- C4: for a list of N document ids over a transport on which K of the
requests fail (and every successful response body is a non-empty, hence
truthy, JSON value, as the paired handler's responses are),
`batch_analyze` collects exactly the successful results in input order
(an order-preserving `filterMap` of the input list), so it returns
exactly N − K results; and it runs sequentially, printing one progress
line per id in input order. -/
theorem batch_analyze_skips_failures (net : Payload → NetOutcome) (now t : String)
    (ids : List String)
    (htruthy : ∀ p j, net p = .ok j → j.truthy = true) :
    (batch_analyze net now ids t).results
        = ids.filterMap (fun i =>
            match net (mk_payload i t now) with
            | .ok j => some j
            | .err _ => none)
      ∧ (batch_analyze net now ids t).results.length
          = ids.length - (ids.filter (requestFails net t now)).length
      ∧ (batch_analyze net now ids t).stdout
          = ids.map (fun i => "Analyzing document " ++ i ++ "...") := by
  obtain ⟨h1, h2, h3⟩ := batch_analyze_spec net now t ids htruthy
  exact ⟨h1, by omega, h3⟩

/-- The concrete transport `netEx` only ever returns the truthy body `objEx`. -/
theorem netEx_truthy : ∀ p j, netEx p = .ok j → j.truthy = true := by
  intro p j hj
  unfold netEx at hj
  split at hj
  · simp at hj
  · injection hj with h
    rw [← h]
    rfl

/-- Witness for C4: ids a, b, c where the request for b fails — two
results survive, in order, and three progress lines are printed. -/
theorem batch_analyze_skips_failures_witness :
    (∀ p j, netEx p = .ok j → j.truthy = true)
      ∧ ((batch_analyze netEx "T" ["a", "b", "c"] "contract").results
            = ["a", "b", "c"].filterMap (fun i =>
                match netEx (mk_payload i "contract" "T") with
                | .ok j => some j
                | .err _ => none)
          ∧ (batch_analyze netEx "T" ["a", "b", "c"] "contract").results.length
              = ["a", "b", "c"].length
                - (["a", "b", "c"].filter (requestFails netEx "contract" "T")).length
          ∧ (batch_analyze netEx "T" ["a", "b", "c"] "contract").stdout
              = ["a", "b", "c"].map (fun i => "Analyzing document " ++ i ++ "...")) :=
  ⟨netEx_truthy, batch_analyze_skips_failures netEx "T" "contract" ["a", "b", "c"] netEx_truthy⟩

/-- C5 (code-bug evidence): the error-path `cloudwatch.put_metric_data`
of lambda_handler.py lines 94-104 is NOT guarded by any try/except.
First conjunct, the failing input: on a request whose body is not valid
JSON (so the except path runs), with a CloudWatch client whose
`put_metric_data` raises, that exception escapes `lambda_handler` and no
5xx response is returned — contradicting the spec's requirement that the
emission be defensive/best-effort. Second conjunct: when the emission
succeeds the handler does return the 500 response after emitting the
`AnalysisErrors` metric. -/
theorem error_metric_emission_unguarded :
    (lambda_handler envMetricDown { body := some "not json" }).1
        = .error "metric backend down"
      ∧ lambda_handler envBadJson { body := some "not json" }
        = (.ok { statusCode := 500
                 headers := [("Content-Type", "application/json")]
                 body := .serverError "Internal server error"
                     "Expecting value: line 1 column 1 (char 0)" },
           [.errorMetric]) :=
  ⟨rfl, rfl⟩

/-- C6: the client's `analyze_document` is total over every transport
outcome and never raises past its boundary: a request-level failure (the
`requests.exceptions.RequestException` class it catches, which covers
network and HTTP-status failures) yields `none` plus one diagnostic line
on stderr, and a success yields the parsed body with no diagnostics;
`get_stats` obeys the same contract. -/
theorem client_failure_tolerant (net : Payload → NetOutcome)
    (netStats : NetOutcome) (now d t : String) :
    (∀ e, net (mk_payload d t now) = .err e →
        cli_analyze_document net now d t =
          { result := none, stderr := ["Error analyzing document: " ++ e] })
      ∧ (∀ j, net (mk_payload d t now) = .ok j →
          cli_analyze_document net now d t = { result := some j, stderr := [] })
      ∧ (∀ e, netStats = .err e →
          get_stats netStats =
            { result := none, stderr := ["Error fetching stats: " ++ e] })
      ∧ (∀ j, netStats = .ok j →
          get_stats netStats = { result := some j, stderr := [] }) := by
  refine ⟨?_, ?_, ?_, ?_⟩ <;> intro x hx <;>
    simp [cli_analyze_document, get_stats, hx]

/-- Witness for C6 on an all-failing transport. -/
theorem client_failure_tolerant_witness :
    cli_analyze_document netFailAll "T" "doc-1" "contract" =
        { result := none, stderr := ["Error analyzing document: connection refused"] }
      ∧ get_stats (.err "connection refused") =
        { result := none, stderr := ["Error fetching stats: connection refused"] } :=
  ⟨(client_failure_tolerant netFailAll (.err "connection refused")
      "T" "doc-1" "contract").1 "connection refused" rfl,
   (client_failure_tolerant netFailAll (.err "connection refused")
      "T" "doc-1" "contract").2.2.1 "connection refused" rfl⟩

/-- C7: every valid request (body decodes, `document_id` present and
non-empty) whose storage write succeeds gets the 200 response whose body
carries the request's `document_id`, the produced result's
`analysis_id`, status completed, a `result_location` that starts with
the s3 scheme (explicit prefix decomposition), and the metrics object
drawn from the result. -/
theorem valid_request_success_response (env : Env) (event : Event) (b : Body) (d : String)
    (hparse : env.jsonLoads (event.body.getD "\x7b\x7d") = .ok b)
    (hdoc : b.document_id = some d) (hne : d ≠ "")
    (hs3 : env.s3PutOutcome = .ok ()) :
    (lambda_handler env event).1 =
        .ok { statusCode := 200
              headers := [("Content-Type", "application/json"),
                          ("Access-Control-Allow-Origin", "*")]
              body := .success d
                  (analyze_document env.rand d (b.document_type.getD "contract")).analysis_id
                  "completed"
                  ("s3://" ++ env.resultsBucket ++ "/" ++
                    ("analysis/" ++ d ++ "/" ++ env.putNowIso ++ ".json"))
                  (analyze_document env.rand d
                    (b.document_type.getD "contract")).metrics.docs_per_hour
                  (analyze_document env.rand d
                    (b.document_type.getD "contract")).metrics.latency_p50
                  (analyze_document env.rand d
                    (b.document_type.getD "contract")).metrics.latency_p95
                  (analyze_document env.rand d
                    (b.document_type.getD "contract")).metrics.latency_p99 }
      ∧ ∃ rest, ("s3://" : String).data ++ rest =
          ("s3://" ++ env.resultsBucket ++ "/" ++
            ("analysis/" ++ d ++ "/" ++ env.putNowIso ++ ".json")).data := by
  constructor
  · unfold lambda_handler
    rw [hparse, hs3]
    simp [hdoc, hne]
  · exact ⟨(env.resultsBucket ++ "/" ++
        ("analysis/" ++ d ++ "/" ++ env.putNowIso ++ ".json")).data,
      by simp [String.data_append]⟩

/-- Witness for C7 at the concrete doc-123 request. -/
theorem valid_request_success_response_witness :
    (lambda_handler envDoc { body := some "x" }).1 =
        .ok { statusCode := 200
              headers := [("Content-Type", "application/json"),
                          ("Access-Control-Allow-Origin", "*")]
              body := .success "doc-123"
                  (analyze_document envDoc.rand "doc-123" "contract").analysis_id
                  "completed"
                  ("s3://" ++ envDoc.resultsBucket ++ "/" ++
                    ("analysis/" ++ "doc-123" ++ "/" ++ envDoc.putNowIso ++ ".json"))
                  (analyze_document envDoc.rand "doc-123" "contract").metrics.docs_per_hour
                  (analyze_document envDoc.rand "doc-123" "contract").metrics.latency_p50
                  (analyze_document envDoc.rand "doc-123" "contract").metrics.latency_p95
                  (analyze_document envDoc.rand "doc-123" "contract").metrics.latency_p99 }
      ∧ ∃ rest, ("s3://" : String).data ++ rest =
          ("s3://" ++ envDoc.resultsBucket ++ "/" ++
            ("analysis/" ++ "doc-123" ++ "/" ++ envDoc.putNowIso ++ ".json")).data :=
  valid_request_success_response envDoc { body := some "x" }
    { document_id := some "doc-123", document_type := some "contract", source := none }
    "doc-123" rfl rfl (by decide) rfl

/-- C8: every successful analysis performs exactly one storage write,
and it is `s3.put_object` to `RESULTS_BUCKET` under the key
`analysis/` ++ document_id ++ `/` ++ timestamp ++ `.json` (the timestamp
being the `datetime.utcnow().isoformat()` read at key construction),
with content type application/json and body the serialized
`AnalysisResult` (modelled by carrying the result value passed to
`json.dumps`). -/
theorem single_storage_write (env : Env) (event : Event) (b : Body) (d : String)
    (hparse : env.jsonLoads (event.body.getD "\x7b\x7d") = .ok b)
    (hdoc : b.document_id = some d) (hne : d ≠ "")
    (hs3 : env.s3PutOutcome = .ok ()) :
    (lambda_handler env event).2.filter Effect.isS3Put =
      [Effect.s3Put env.resultsBucket
        ("analysis/" ++ d ++ "/" ++ env.putNowIso ++ ".json")
        (analyze_document env.rand d (b.document_type.getD "contract"))
        "application/json"] := by
  unfold lambda_handler
  rw [hparse, hs3]
  simp [hdoc, hne, send_metrics, Effect.isS3Put]

/-- Witness for C8 at the concrete doc-123 request. -/
theorem single_storage_write_witness :
    (lambda_handler envDoc { body := some "x" }).2.filter Effect.isS3Put =
      [Effect.s3Put envDoc.resultsBucket
        ("analysis/" ++ "doc-123" ++ "/" ++ envDoc.putNowIso ++ ".json")
        (analyze_document envDoc.rand "doc-123" "contract")
        "application/json"] :=
  single_storage_write envDoc { body := some "x" }
    { document_id := some "doc-123", document_type := some "contract", source := none }
    "doc-123" rfl rfl (by decide) rfl

/-- C9: the CLI's exit behaviour. When the selected action's required
argument is missing (`--doc-id` for analyze, `--batch-file` for batch —
Python truthiness also treats an empty-string flag value as missing),
`main` exits 1 with the corresponding message on stderr after zero
network calls; a transport failure during analyze or stats still exits
0, with the diagnostic on stderr. -/
theorem cli_exit_codes (args : Args) (net : Payload → NetOutcome)
    (netStats : NetOutcome) (readBatchFile : String → List String) (now : String) :
    (args.action = .analyze → args.doc_id.getD "" = "" →
        cli_main args net netStats readBatchFile now =
          { exitCode := 1, stdout := [],
            stderr := ["Error: --doc-id required for analyze action"], netCalls := 0 })
      ∧ (args.action = .batch → args.batch_file.getD "" = "" →
          cli_main args net netStats readBatchFile now =
            { exitCode := 1, stdout := [],
              stderr := ["Error: --batch-file required for batch action"], netCalls := 0 })
      ∧ (∀ d e, args.action = .analyze → args.doc_id = some d → d ≠ "" →
          net (mk_payload d args.doc_type now) = .err e →
          (cli_main args net netStats readBatchFile now).exitCode = 0
            ∧ (cli_main args net netStats readBatchFile now).stderr
              = ["Error analyzing document: " ++ e])
      ∧ (∀ e, args.action = .stats → netStats = .err e →
          (cli_main args net netStats readBatchFile now).exitCode = 0
            ∧ (cli_main args net netStats readBatchFile now).stderr
              = ["Error fetching stats: " ++ e]) := by
  refine ⟨?_, ?_, ?_, ?_⟩
  · intro ha hmiss
    simp [cli_main, ha, hmiss]
  · intro ha hmiss
    simp [cli_main, ha, hmiss]
  · intro d e ha hdoc hne hnet
    have : cli_main args net netStats readBatchFile now =
        { exitCode := 0, stdout := [],
          stderr := ["Error analyzing document: " ++ e], netCalls := 1 } := by
      simp [cli_main, ha, hdoc, hne, cli_analyze_document, hnet]
    rw [this]
    exact ⟨rfl, rfl⟩
  · intro e ha hnet
    have : cli_main args net netStats readBatchFile now =
        { exitCode := 0, stdout := [],
          stderr := ["Error fetching stats: " ++ e], netCalls := 1 } := by
      simp [cli_main, ha, get_stats, hnet]
    rw [this]
    exact ⟨rfl, rfl⟩

/-- Witness for C9: analyze with no `--doc-id` exits 1 without touching
the network, and an analyze whose request fails still exits 0. -/
theorem cli_exit_codes_witness :
    cli_main
        { endpoint := "https://api.vchasno.com", action := .analyze,
          doc_id := none, doc_type := "contract", batch_file := none }
        netFailAll (.err "x") readAbc "T" =
      { exitCode := 1, stdout := [],
        stderr := ["Error: --doc-id required for analyze action"], netCalls := 0 }
    ∧ (cli_main
        { endpoint := "https://api.vchasno.com", action := .analyze,
          doc_id := some "doc-1", doc_type := "contract", batch_file := none }
        netFailAll (.err "x") readAbc "T").exitCode = 0 :=
  ⟨(cli_exit_codes
      { endpoint := "https://api.vchasno.com", action := .analyze,
        doc_id := none, doc_type := "contract", batch_file := none }
      netFailAll (.err "x") readAbc "T").1 rfl rfl,
   ((cli_exit_codes
      { endpoint := "https://api.vchasno.com", action := .analyze,
        doc_id := some "doc-1", doc_type := "contract", batch_file := none }
      netFailAll (.err "x") readAbc "T").2.2.1 "doc-1" "connection refused"
      rfl rfl (by decide) rfl).1⟩

/-- C10: a `body` value that is a string `json.loads` raises on sends the
handler down the except path, yielding the 500 Internal-server-error
response (not a 4xx) — assuming the error-metric emission itself
succeeds — whereas an event with no `body` key at all falls back to the
literal empty-object string, which decodes to an empty body and yields
the 400 missing-document_id response. -/
theorem invalid_json_body_is_server_error (env : Env) (s e : String) (b : Body)
    (hbad : env.jsonLoads s = .error e)
    (hcw : env.errorMetricOutcome = .ok ())
    (hempty : env.jsonLoads "\x7b\x7d" = .ok b)
    (hb : b.document_id = none) :
    (lambda_handler env { body := some s }).1 =
        .ok { statusCode := 500
              headers := [("Content-Type", "application/json")]
              body := .serverError "Internal server error" e }
      ∧ lambda_handler env { body := none } =
        (.ok { statusCode := 400, headers := [],
               body := .clientError "document_id is required" }, []) := by
  constructor
  · unfold lambda_handler handle_error
    simp only [Option.getD_some]
    rw [hbad, hcw]
  · unfold lambda_handler
    simp only [Option.getD_none]
    rw [hempty]
    simp [hb]

/-- Witness for C10 with the partial real `json.loads` model. -/
theorem invalid_json_body_is_server_error_witness :
    (lambda_handler envBadJson { body := some "not json" }).1 =
        .ok { statusCode := 500
              headers := [("Content-Type", "application/json")]
              body := .serverError "Internal server error"
                  "Expecting value: line 1 column 1 (char 0)" }
      ∧ lambda_handler envBadJson { body := none } =
        (.ok { statusCode := 400, headers := [],
               body := .clientError "document_id is required" }, []) :=
  invalid_json_body_is_server_error envBadJson "not json"
    "Expecting value: line 1 column 1 (char 0)"
    { document_id := none, document_type := none, source := none }
    rfl rfl rfl rfl

end Vchasno
